import Mathlib

/-!
Verification development for the Text2-SQL repository.

The Python sources (db_utils.py, agent.py) are shallowly embedded here.
The SQLite engine is an external collaborator and is modelled abstractly as
a state-passing function that, for each statement string, either returns a
new database state together with a cursor snapshot (description, fetched
rows, rowcount, lastrowid) or raises an exception carrying a message.
Python strings are modelled as Lean strings, and the handful of string
operations the code uses (strip, split, upper, find, replace) are
implemented on character lists with the exact Python semantics, restricted
to the ASCII behaviour that all inputs in the repository exercise.
-/

namespace Text2SQL

/-- Python runtime values that can appear in a result row: integers,
strings and None.  This covers every value the embedded code produces. -/
inductive PyVal where
  | int (n : Int)
  | str (s : String)
  | none
deriving DecidableEq, Repr

/-- Python str() rendering of a value, as used by f-string interpolation. -/
def pyStr : PyVal → String
  | PyVal.int n => toString n
  | PyVal.str s => s
  | PyVal.none => "None"

/-- A Python dict with string keys, in insertion order with unique keys. -/
abbrev Dict := List (String × PyVal)

/-- Setting a key in a Python dict: overwrite in place if the key exists,
otherwise append at the end (insertion order). -/
def dictSet (d : Dict) (k : String) (v : PyVal) : Dict :=
  if (d.map Prod.fst).contains k then
    d.map (fun p => if p.1 = k then (k, v) else p)
  else d ++ [(k, v)]

/-- Python dict built from an association list, later keys overriding. -/
def pyDict (ps : List (String × PyVal)) : Dict :=
  ps.foldl (fun d p => dictSet d p.1 p.2) []

/-- Python dict.get with a default. -/
def dictGet (d : Dict) (k : String) (dflt : PyVal) : PyVal :=
  ((d.find? (fun p => p.1 == k)).map Prod.snd).getD dflt

/-- Whitespace test used by Python strip, lstrip and the regex class \s
(ASCII fragment). -/
def isWs (c : Char) : Bool := c.isWhitespace

/-- Length of the maximal whitespace run at the front of a string. -/
def wsCount (cs : List Char) : Nat := (cs.takeWhile isWs).length

/-- Python str.strip on a character list: drop whitespace at both ends. -/
def stripL (cs : List Char) : List Char :=
  ((cs.dropWhile isWs).reverse.dropWhile isWs).reverse

/-- Python str.strip on strings. -/
def pyStrip (s : String) : String := String.mk (stripL s.data)

/-- Case-insensitive literal match at the front of the input (ASCII, as in
the re.IGNORECASE patterns of db_utils.py); on success returns the rest. -/
def stripCi : List Char → List Char → Option (List Char)
  | [], cs => some cs
  | _ :: _, [] => Option.none
  | p :: ps, c :: cs =>
    if p.toLower = c.toLower then stripCi ps cs else Option.none

/-- Leftmost position at which pat occurs in cs, Python str.find. -/
def firstOccur (pat : List Char) : List Char → Option Nat
  | [] => if pat.isPrefixOf [] then some 0 else Option.none
  | c :: rest =>
    if pat.isPrefixOf (c :: rest) then some 0
    else (firstOccur pat rest).map (· + 1)

/-- Python substring membership test (the in operator on str). -/
def containsSub (pat s : String) : Bool := (firstOccur pat.data s.data).isSome

/-- Scanner underlying Python str.split(sep): emits the accumulated segment
whenever sep matches, then skips the separator characters one at a time via
the skip counter (matches are non-overlapping, left to right). -/
def splitGo (sep : List Char) : List Char → List Char → Nat → List (List Char)
  | [], acc, _ => [acc.reverse]
  | _ :: rest, acc, Nat.succ skip => splitGo sep rest acc skip
  | c :: rest, acc, 0 =>
    if sep.isPrefixOf (c :: rest) then
      acc.reverse :: splitGo sep rest [] (sep.length - 1)
    else splitGo sep rest (c :: acc) 0

/-- Python str.split(sep) for a nonempty separator. -/
def splitSub (sep cs : List Char) : List (List Char) :=
  if sep.isEmpty then [cs] else splitGo sep cs [] 0

/-- Python str.replace(old, new, 1): replace the leftmost occurrence. -/
def replaceFirst (s old new : String) : String :=
  match firstOccur old.data s.data with
  | some i => String.mk (s.data.take i ++ new.data ++ s.data.drop (i + old.data.length))
  | Option.none => s

/-- Statement splitter shared by execute_sql_query and validate_sql_query:
[s.strip() for s in sql_query.strip().split(";") if s.strip()]. -/
def splitStatements (sql : String) : List String :=
  ((splitSub ";".data (stripL sql.data)).map stripL).filterMap
    (fun cs => if cs.isEmpty then Option.none else some (String.mk cs))

/-- Test stmt.lstrip().upper().startswith("SELECT") used to classify a
statement as a read in both the executor and the validator. -/
def isSelect (stmt : String) : Bool :=
  "SELECT".data.isPrefixOf ((stmt.data.dropWhile isWs).map Char.toUpper)

/-- Snapshot of a sqlite3 cursor after one execute call: the column
description (None for statements producing no rows), the fetched rows, the
rowcount and the lastrowid. -/
structure Cursor where
  description : Option (List String)
  rows : List (List PyVal)
  rowcount : Int
  lastrowid : Option Int
deriving DecidableEq, Repr

/-- Abstract SQLite engine over database states of type d: executing one
statement either yields a new state and a cursor snapshot, or raises an
exception with a message (str(e) in the Python sources). -/
abbrev Engine (d : Type) := d → String → Except String (d × Cursor)

/-- Conversion of a cursor into a list of row dicts, as in
execute_sql_query: cols are the description names (empty when the
description is falsy) and each row is dict(zip(cols, row)). -/
def rowsToDicts (c : Cursor) : List Dict :=
  let cols := match c.description with
    | some ds => ds
    | Option.none => []
  c.rows.map (fun r => pyDict (cols.zip r))

/-- Loop state of execute_sql_query: the committed and current database
states of the single connection, total_rows_affected, last_row_id, the
rows of the most recent SELECT, and the list of engine calls made so far
(statement paired with the cursor it produced). -/
structure LoopSt (d : Type) where
  committed : d
  current : d
  total : Int
  lastId : Option Int
  selRes : List Dict
  trace : List (String × Cursor)
deriving DecidableEq, Repr

/-- Initial loop state on a fresh connection to database state db. -/
def initSt (db : d) : LoopSt d := ⟨db, db, 0, Option.none, [], []⟩

/-- Payload of the exception path of execute_sql_query: the message, the
state committed so far (writes already committed survive the failure) and
the statements sent to the engine including the failing one. -/
structure ExecFail (d : Type) where
  msg : String
  committed : d
  calls : List String
deriving DecidableEq, Repr

/-- One iteration of the statement loop of execute_sql_query: a SELECT
statement is executed and its rows overwrite select_result; any other
statement is executed and committed immediately, accumulating rowcount
(when not -1) and recording lastrowid. -/
def execStep (eng : Engine d) (st : LoopSt d) (stmt : String) :
    Except (ExecFail d) (LoopSt d) :=
  if isSelect stmt then
    match eng st.current stmt with
    | Except.error e => Except.error ⟨e, st.committed, st.trace.map Prod.fst ++ [stmt]⟩
    | Except.ok (cur, c) =>
      Except.ok { st with current := cur, selRes := rowsToDicts c,
                          trace := st.trace ++ [(stmt, c)] }
  else
    match eng st.current stmt with
    | Except.error e => Except.error ⟨e, st.committed, st.trace.map Prod.fst ++ [stmt]⟩
    | Except.ok (cur, c) =>
      Except.ok { st with current := cur, committed := cur,
                          total := if c.rowcount ≠ -1 then st.total + c.rowcount else st.total,
                          lastId := c.lastrowid,
                          trace := st.trace ++ [(stmt, c)] }

/-- Statement loop of execute_sql_query, aborting at the first engine
exception (caught by the surrounding try). -/
def execLoop (eng : Engine d) : List String → LoopSt d → Except (ExecFail d) (LoopSt d)
  | [], st => Except.ok st
  | stmt :: rest, st =>
    match execStep eng st stmt with
    | Except.error f => Except.error f
    | Except.ok st2 => execLoop eng rest st2

/-- PyVal carried by an optional integer (int or None). -/
def pyOfOpt : Option Int → PyVal
  | some n => PyVal.int n
  | Option.none => PyVal.none

/-- Embedding of execute_sql_query (db_utils.py, lines 99-140).  Returns
the Python return value, the resulting persistent database state (commits
survive, uncommitted work is discarded when the connection closes or the
exception path leaks it), and the list of statements sent to the engine. -/
def executeSqlQuery (eng : Engine d) (db : d) (sql : String) :
    List Dict × d × List String :=
  match splitStatements sql with
  | [] => ([[("error", PyVal.str "Empty SQL")]], db, [])
  | s0 :: tl =>
    match execLoop eng (s0 :: tl) (initSt db) with
    | Except.error f =>
      ([[("error", PyVal.str ("Error executing query: " ++ f.msg))]], f.committed, f.calls)
    | Except.ok st =>
      ((if isSelect ((s0 :: tl).getLastD "") then st.selRes
        else [[("rows_affected", PyVal.int st.total), ("last_row_id", pyOfOpt st.lastId)]]),
       st.committed, st.trace.map Prod.fst)

/-- Return value of validate_sql_query: the dict with valid True and the
collected plans, or valid False with an error message. -/
inductive ValidateResult where
  | valid (plans : List (List (List PyVal)))
  | invalid (error : String)
deriving DecidableEq, Repr

/-- Statement loop of validate_sql_query: a SELECT statement is checked by
running EXPLAIN QUERY PLAN on it (an engine exception escapes to the outer
try and rejects); any other statement is executed and rolled back inside an
inner try whose except clause swallows every exception.  The committed
parameter is the rollback target; validation never commits. -/
def valLoop (eng : Engine d) (committed : d) :
    List String → d → List (List (List PyVal)) → List String → ValidateResult × List String
  | [], _, plans, calls => (ValidateResult.valid plans, calls)
  | stmt :: rest, cur, plans, calls =>
    if isSelect stmt then
      let q := "EXPLAIN QUERY PLAN " ++ stmt
      match eng cur q with
      | Except.error e => (ValidateResult.invalid e, calls ++ [q])
      | Except.ok (cur2, c) => valLoop eng committed rest cur2 (plans ++ [c.rows]) (calls ++ [q])
    else
      match eng cur stmt with
      | Except.error _ => valLoop eng committed rest cur plans (calls ++ [stmt])
      | Except.ok _ => valLoop eng committed rest committed plans (calls ++ [stmt])

/-- Embedding of validate_sql_query (db_utils.py, lines 142-173).  Returns
the validation outcome and the statements sent to the engine; the
connection is closed without commit, so the persistent state is unchanged. -/
def validateSqlQuery (eng : Engine d) (db : d) (sql : String) :
    ValidateResult × List String :=
  match splitStatements sql with
  | [] => (ValidateResult.invalid "Empty SQL", [])
  | ss => valLoop eng db ss db [] []

/-- Names of aggregate functions (db_utils.py line 209).  The tuple is
declared in the source next to ensure_aliases, which hardcodes the same
five names with their aliases. -/
def AGG_FUNCS : List String := ["COUNT", "SUM", "AVG", "MIN", "MAX"]

/-- Test for the tail of the lazy group in the anchored pattern
  (?is)\s*select\s+(.*?)\s+from\s+ :
does rem begin with one or more whitespace characters, then the literal
from (case-insensitive), then at least one whitespace character?  The runs
of \s+ are forced to be maximal because the following characters (f, and
the first group character seen by backtracking) are never whitespace. -/
def tailFrom (rem : List Char) : Bool :=
  if wsCount rem = 0 then false
  else
    match stripCi "from".data (rem.drop (wsCount rem)) with
    | Option.none => false
    | some r => decide (0 < wsCount r)

/-- Lazy search for the shortest group: extend the group one character at
a time until the rest of the pattern matches, exactly the priority order
of the lazy quantifier (.*?) in the Python regex engine. -/
def lazyGroup (acc : List Char) : List Char → Option (List Char)
  | [] => if tailFrom [] then some acc.reverse else Option.none
  | c :: rs =>
    if tailFrom (c :: rs) then some acc.reverse
    else lazyGroup (c :: acc) rs

/-- Anchored match of re.match((?is)\s*select\s+(.*?)\s+from\s+, sql),
returning group 1 (the SELECT clause).  The leading \s* and the literal
select are forced (select does not start with whitespace); the first \s+
is greedy with full backtracking, longest run first, and inside each
choice the group is lazy. -/
def matchSelectFrom (sql : String) : Option String :=
  let cs1 := sql.data.dropWhile isWs
  match stripCi "select".data cs1 with
  | Option.none => Option.none
  | some rest =>
    let kmax := wsCount rest
    ((List.range kmax).findSome? (fun i => lazyGroup [] (rest.drop (kmax - i)))).map String.mk

/-- Attempted match, at the current position, of the group of the pattern
  (?i)(FUNC\s*\(\s*[^)]+\s*\))
used by the patch helper inside ensure_aliases: the function name
(case-insensitive), optional whitespace, an opening parenthesis, at least
one character none of which is a closing parenthesis (the greedy class
necessarily stops at the first closing parenthesis), and the closing
parenthesis.  On success returns the matched length, which is always
positive. -/
def tryMatchCall (func : List Char) (cs : List Char) : Option Nat :=
  match stripCi func cs with
  | Option.none => Option.none
  | some r1 =>
    let k := wsCount r1
    match r1.drop k with
    | '(' :: r3 =>
      let content := r3.takeWhile (fun c => c ≠ ')')
      if content.isEmpty then Option.none
      else
        match r3.drop content.length with
        | ')' :: _ => some (func.length + k + 1 + content.length + 1)
        | _ => Option.none
    | _ => Option.none

/-- Word character test of the regex class \w (ASCII fragment). -/
def isWordChar (c : Char) : Bool := c.isAlphanum || c = '_'

/-- The lookahead body \s+AS\s+\w of the patch pattern, case-insensitive:
whitespace, the literal AS, whitespace, then a word character.  Both \s+
runs are forced to be maximal since neither A nor a word character is
whitespace. -/
def lookAS (cs : List Char) : Bool :=
  if wsCount cs = 0 then false
  else
    match stripCi "as".data (cs.drop (wsCount cs)) with
    | Option.none => false
    | some r =>
      if wsCount r = 0 then false
      else
        match r.drop (wsCount r) with
        | c :: _ => isWordChar c
        | [] => false

/-- Scanner of re.sub for the patch pattern: at each position try the
group; when it matches and the negative lookahead (?!\s+AS\s+\w) holds,
emit the match followed by a space, AS, a space and the alias, and resume
after the match (non-overlapping); when the lookahead fails or there is no
match, emit the character and move one position right.  The skip counter
walks the scanner through an already emitted match region. -/
def subGo (func anm : List Char) : List Char → Nat → List Char
  | [], _ => []
  | _ :: rest, Nat.succ skip => subGo func anm rest skip
  | c :: rest, 0 =>
    match tryMatchCall func (c :: rest) with
    | some len =>
      if lookAS ((c :: rest).drop len) then c :: subGo func anm rest 0
      else
        (c :: rest).take len ++ (" AS ".data ++ anm) ++ subGo func anm rest (len - 1)
    | Option.none => c :: subGo func anm rest 0

/-- The patch helper of ensure_aliases: re.sub of the aggregate pattern
with replacement \1 AS alias over the SELECT clause. -/
def patch (selectText : String) (func anm : String) : String :=
  String.mk (subGo func.data anm.data selectText.data 0)

/-- Embedding of ensure_aliases (db_utils.py, lines 211-228): when the
string matches the anchored select-from pattern, patch the captured SELECT
clause for the five aggregate functions in order, then splice the patched
clause back by replacing the first occurrence of the original clause;
otherwise return the string unchanged. -/
def ensureAliases (sql : String) : String :=
  match matchSelectFrom sql with
  | Option.none => sql
  | some selectPart =>
    let patched :=
      patch (patch (patch (patch (patch selectPart "COUNT" "count")
        "SUM" "total") "AVG" "average") "MIN" "min") "MAX" "max"
    if patched = selectPart then sql else replaceFirst sql selectPart patched

/-- Embedding of clean_code_fences (db_utils.py, lines 230-235), written
with the Python split semantics: with a sql fence take the second split
segment and cut it at the first plain fence; with only a plain fence take
the second split segment; otherwise strip the whole text.  The indexing
text.split(...)[1] in the source is safe because the split list has at
least two elements whenever the marker occurs, which the branch guard
checks; getD with an empty default models that total access. -/
def cleanCodeFences (text : String) : String :=
  if containsSub "```sql" text then
    pyStrip (String.mk ((splitSub "```".data ((splitSub "```sql".data text.data).getD 1 [])).headD []))
  else if containsSub "```" text then
    pyStrip (String.mk ((splitSub "```".data text.data).getD 1 []))
  else pyStrip text

/-- Ordered union of the keys of all rows, as computed by
as_markdown_table (db_utils.py, lines 180-184). -/
def collectCols (rows : List Dict) : List String :=
  rows.foldl
    (fun cols r => (r.map Prod.fst).foldl
      (fun cs k => if cs.contains k then cs else cs ++ [k]) cols) []

/-- Embedding of as_markdown_table (db_utils.py, lines 176-194). -/
def asMarkdownTable (rows : List Dict) (maxRows : Nat) : String :=
  if rows.isEmpty then "_No rows._"
  else
    let cols := collectCols rows
    let header := "| " ++ String.intercalate " | " cols ++ " |"
    let sepLine := "| " ++ String.intercalate " | " (cols.map (fun _ => "---")) ++ " |"
    let body := (rows.take maxRows).map
      (fun r => "| " ++ String.intercalate " | "
        (cols.map (fun c => pyStr (dictGet r c (PyVal.str "")))) ++ " |")
    let table := String.intercalate "\n" (header :: sepLine :: body)
    if rows.length > maxRows then
      table ++ "\n\n_Note: showing first " ++ toString maxRows ++ " of "
        ++ toString rows.length ++ " rows._"
    else table

/-- Per-row lines of as_row_details, numbered from a starting index. -/
def rowDetailLines : Nat → List Dict → List String
  | _, [] => []
  | i, r :: rs =>
    ("\n**Row " ++ toString i ++ "**")
      :: (r.map (fun p => "- **" ++ p.1 ++ "**: " ++ pyStr p.2) ++ rowDetailLines (i + 1) rs)

/-- Embedding of as_row_details (db_utils.py, lines 196-206). -/
def asRowDetails (rows : List Dict) (maxRows : Nat) (title : String) : String :=
  if rows.isEmpty then ""
  else
    let lines := ("**" ++ title ++ ":**") :: rowDetailLines 1 (rows.take maxRows)
    let lines :=
      if rows.length > maxRows then
        lines ++ ["\n_Note: showing first " ++ toString maxRows ++ " of "
          ++ toString rows.length ++ " rows._"]
      else lines
    String.intercalate "\n" lines

/-- The classic pipeline state ChatBotState of agent.py (user_query,
sql_query, query_result, final_response), with optional fields modelling
the Optional type hints. -/
structure ChatBotState where
  user_query : String
  sql_query : Option String
  query_result : Option (List Dict)
  final_response : Option String
deriving DecidableEq, Repr

/-- The literal replacement-character pair that agent.py prepends to error
replies (the source file carries the two characters U+00E2 U+0152, a
mojibake of a cross mark, followed by space, Error, colon, space). -/
def errMark : String := "âŒ Error: "

/-- Embedding of query_executor_node (agent.py, lines 77-93) over the
abstract engine: empty SQL short-circuits with an error result and no
engine call; otherwise validate, retry validation once on the
ensure_aliases rewrite when it changes the text, then reject with an
Invalid query message or execute.  Returns the updated state, the
persistent database state, and every statement sent to the engine. -/
def queryExecutorNode (eng : Engine d) (db : d) (state : ChatBotState) :
    ChatBotState × d × List String :=
  let sql0 := pyStrip (state.sql_query.getD "")
  if sql0 = "" then
    ({ state with query_result := some [[("error", PyVal.str "No SQL query provided")]],
                  final_response := some "" }, db, [])
  else
    let v1 := validateSqlQuery eng db sql0
    match v1.1 with
    | ValidateResult.valid _ =>
      let r := executeSqlQuery eng db sql0
      ({ state with query_result := some r.1, final_response := some "" },
       r.2.1, v1.2 ++ r.2.2)
    | ValidateResult.invalid e1 =>
      let fixed := ensureAliases sql0
      if fixed = sql0 then
        ({ state with query_result := some [[("error", PyVal.str ("Invalid query: " ++ e1))]],
                      final_response := some "" }, db, v1.2)
      else
        let v2 := validateSqlQuery eng db fixed
        match v2.1 with
        | ValidateResult.valid _ =>
          let r := executeSqlQuery eng db fixed
          ({ state with query_result := some r.1, final_response := some "" },
           r.2.1, v1.2 ++ v2.2 ++ r.2.2)
        | ValidateResult.invalid e2 =>
          ({ state with query_result := some [[("error", PyVal.str ("Invalid query: " ++ e2))]],
                        final_response := some "" }, db, v1.2 ++ v2.2)

/-- Markdown body rendered for SELECT results (also used when the result
list is empty), agent.py lines 112-122. -/
def renderSelectBody (sql : String) (qr : List Dict) : String :=
  "**SQL**\n```sql\n" ++ sql ++ "\n```\n**Rows:** " ++ toString qr.length
    ++ "\n\n" ++ asMarkdownTable qr 1000 ++ "\n\n" ++ asRowDetails qr 100 "Row details"

/-- Embedding of response_generator_node (agent.py, lines 95-122): an
error result renders the mark and the error text, a mutation summary
renders rows affected and last id, anything else renders the table body. -/
def responseGeneratorNode (state : ChatBotState) : ChatBotState :=
  let sql := pyStrip (state.sql_query.getD "")
  let qr := state.query_result.getD []
  match qr with
  | r0 :: _ =>
    if (r0.map Prod.fst).contains "error" then
      let final := errMark ++ pyStr (dictGet r0 "error" (PyVal.str ""))
      { state with final_response := some final }
    else if (r0.map Prod.fst).contains "rows_affected" then
      let final := "**SQL**\n```sql\n" ++ sql ++ "\n```\n**Result**\n- Rows affected: **"
        ++ pyStr (dictGet r0 "rows_affected" (PyVal.int 0))
        ++ "**\n- Last inserted id: **"
        ++ pyStr (dictGet r0 "last_row_id" PyVal.none) ++ "**"
      { state with final_response := some final }
    else { state with final_response := some (renderSelectBody sql qr) }
  | [] => { state with final_response := some (renderSelectBody sql qr) }

/-- Concrete engine instance used to evaluate the theorems on closed
inputs: the database state is the list of integer values of a single
column x of a table t; a handful of statements are interpreted and every
other statement raises a syntax error, as the real engine would. -/
def toyRun : Engine (List Int) := fun db stmt =>
  if stmt = "SELECT * FROM t" then
    Except.ok (db, ⟨some ["x"], db.map (fun n => [PyVal.int n]), -1, Option.none⟩)
  else if stmt = "EXPLAIN QUERY PLAN SELECT * FROM t" then
    Except.ok (db, ⟨some ["detail"], [[PyVal.str "SCAN t"]], -1, Option.none⟩)
  else if stmt = "DELETE FROM t WHERE x=1" then
    Except.ok (db.filter (fun n => n ≠ 1),
      ⟨Option.none, [], Int.ofNat (db.filter (fun n => n = 1)).length, Option.none⟩)
  else if stmt = "INSERT INTO t VALUES (7)" then
    Except.ok (db ++ [7], ⟨Option.none, [], 1, some 7⟩)
  else if stmt = "FAIL NOW" then
    Except.error "disk I/O error"
  else
    Except.error ("near \"" ++ stmt ++ "\": syntax error")

/-- Rows-affected aggregate over an engine-call trace: the sum of the
rowcounts of the non-SELECT calls whose rowcount is not -1, mirroring the
accumulation of total_rows_affected in execute_sql_query. -/
def aggTotal (tr : List (String × Cursor)) : Int :=
  tr.foldl
    (fun a p => if isSelect p.1 then a
      else if p.2.rowcount ≠ -1 then a + p.2.rowcount else a) 0

/-- Last-row-id aggregate over an engine-call trace: the lastrowid of the
last non-SELECT call, None when there is none, mirroring last_row_id. -/
def aggLastId (tr : List (String × Cursor)) : Option Int :=
  tr.foldl (fun a p => if isSelect p.1 then a else p.2.lastrowid) Option.none

/-- Test that one string begins with another, used to state the reply
shape of rejected queries. -/
def strBeginsWith (s pre : String) : Bool := pre.data.isPrefixOf s.data

/-- Cut a character list at the first occurrence of a marker (the content
strictly before the marker; the whole list when the marker is absent). -/
def fenceCut (marker : List Char) (cs : List Char) : List Char :=
  match firstOccur marker cs with
  | some j => cs.take j
  | Option.none => cs

/-- Modelled from the wording of claim C10, read literally: with a sql
fence, return the content between the first sql fence and the next plain
fence, stripped; with only a plain fence, return all content after the
first fence, stripped; otherwise the stripped input. -/
def cleanCodeFencesLiteral (text : String) : String :=
  match firstOccur "```sql".data text.data with
  | some i =>
    pyStrip (String.mk (fenceCut "```".data (text.data.drop (i + "```sql".data.length))))
  | Option.none =>
    match firstOccur "```".data text.data with
    | some i => pyStrip (String.mk (text.data.drop (i + "```".data.length)))
    | Option.none => pyStrip text

/-- Amended reading of claim C10, stated independently of the split-based
implementation: with a sql fence, take the content after the first sql
fence, cut it at the next sql fence, cut the result at the first plain
fence and strip; with only a plain fence, take the content after the first
fence, cut it at the next fence and strip; otherwise strip the input. -/
def cleanCodeFencesSegments (text : String) : String :=
  match firstOccur "```sql".data text.data with
  | some i =>
    let rest := text.data.drop (i + "```sql".data.length)
    pyStrip (String.mk (fenceCut "```".data (fenceCut "```sql".data rest)))
  | Option.none =>
    match firstOccur "```".data text.data with
    | some i =>
      pyStrip (String.mk (fenceCut "```".data (text.data.drop (i + "```".data.length))))
    | Option.none => pyStrip text

/-! Helper lemmas about the split scanner. -/

theorem splitGo_skip (sep : List Char) :
    ∀ (cs acc : List Char) (k : Nat), splitGo sep cs acc k = splitGo sep (cs.drop k) acc 0 := by
  intro cs
  induction cs with
  | nil => intro acc k; cases k <;> simp [splitGo]
  | cons c rest ih =>
    intro acc k
    cases k with
    | zero => rfl
    | succ k => simpa [splitGo] using ih acc k

theorem splitGo_zero (sep : List Char) (hsep : sep ≠ []) :
    ∀ (cs acc : List Char),
      splitGo sep cs acc 0 =
        (match firstOccur sep cs with
         | Option.none => [acc.reverse ++ cs]
         | some i => (acc.reverse ++ cs.take i) :: splitGo sep (cs.drop (i + sep.length)) [] 0) := by
  intro cs
  induction cs with
  | nil =>
    intro acc
    have h1 : sep.isPrefixOf ([] : List Char) = false := by
      cases sep with
      | nil => exact absurd rfl hsep
      | cons s ss => rfl
    simp [splitGo, firstOccur, h1]
  | cons c rest ih =>
    intro acc
    by_cases hp : sep.isPrefixOf (c :: rest)
    · obtain ⟨s, ss, hss⟩ : ∃ s ss, sep = s :: ss := by
        cases sep with
        | nil => exact absurd rfl hsep
        | cons s ss => exact ⟨s, ss, rfl⟩
      have hfo : firstOccur sep (c :: rest) = some 0 := by simp [firstOccur, hp]
      rw [hfo]
      simp only [splitGo, hp, if_pos]
      rw [splitGo_skip]
      subst hss
      simp
    · have hfo : firstOccur sep (c :: rest) = (firstOccur sep rest).map (· + 1) := by
        simp [firstOccur, hp]
      rw [hfo]
      simp only [splitGo, hp, if_neg, Bool.false_eq_true, not_false_iff, ite_false]
      rw [ih (c :: acc)]
      cases hfr : firstOccur sep rest with
      | none => simp
      | some i =>
        have hdrop : List.drop (i + 1 + sep.length) (c :: rest) = List.drop (i + sep.length) rest := by
          have h3 : i + 1 + sep.length = (i + sep.length) + 1 := by omega
          rw [h3, List.drop_succ_cons]
        simp [hdrop, List.take_succ_cons, List.append_assoc]

theorem splitSub_of_none (sep cs : List Char) (hsep : sep ≠ [])
    (h : firstOccur sep cs = Option.none) : splitSub sep cs = [cs] := by
  rw [splitSub, if_neg (by simpa using hsep), splitGo_zero sep hsep, h]
  simp

theorem splitSub_of_some (sep cs : List Char) (i : Nat) (hsep : sep ≠ [])
    (h : firstOccur sep cs = some i) :
    splitSub sep cs = cs.take i :: splitSub sep (cs.drop (i + sep.length)) := by
  rw [splitSub, if_neg (by simpa using hsep), splitGo_zero sep hsep, h,
      splitSub, if_neg (by simpa using hsep)]
  simp

theorem splitSub_headD (sep cs : List Char) (hsep : sep ≠ []) :
    (splitSub sep cs).headD [] = fenceCut sep cs := by
  cases h : firstOccur sep cs with
  | none => rw [splitSub_of_none sep cs hsep h]; simp [fenceCut, h]
  | some i => rw [splitSub_of_some sep cs i hsep h]; simp [fenceCut, h]

theorem getD_zero_headD {α : Type} (l : List α) (d : α) : l.getD 0 d = l.headD d := by
  cases l <;> rfl

/-- Claim C10 (counterexample): read literally, the claim says that for a
text containing a plain fence but no sql fence the function returns the
stripped content after the first fence; on the input below the code
instead returns only the segment between the first and second fences. -/
theorem clean_code_fences_literal_cex :
    cleanCodeFences "a```b```c" = "b" ∧
    cleanCodeFencesLiteral "a```b```c" = "b```c" ∧
    cleanCodeFences "a```b```c" ≠ cleanCodeFencesLiteral "a```b```c" := by
  refine ⟨by decide, by decide, by decide⟩

/-- Claim C10 (amended): clean_code_fences equals the segment-based
description: with a sql fence, the content after the first sql fence, cut
at the next sql fence, cut at the first plain fence, stripped; with only a
plain fence, the content after the first fence cut at the next fence,
stripped; otherwise the stripped input. -/
theorem clean_code_fences_segments (text : String) :
    cleanCodeFences text = cleanCodeFencesSegments text := by
  have hsql : ("```sql".data : List Char) ≠ [] := by decide
  have hpf : ("```".data : List Char) ≠ [] := by decide
  cases h1 : firstOccur "```sql".data text.data with
  | some i =>
    have hc : containsSub "```sql" text = true := by
      simp [containsSub, h1]
    rw [cleanCodeFences, if_pos hc, cleanCodeFencesSegments, h1]
    rw [splitSub_of_some _ _ i hsql h1]
    simp only [List.getD_cons_succ]
    rw [getD_zero_headD, splitSub_headD _ _ hsql, splitSub_headD _ _ hpf]
  | none =>
    have hc : containsSub "```sql" text = false := by
      simp [containsSub, h1]
    cases h2 : firstOccur "```".data text.data with
    | some i =>
      have hc2 : containsSub "```" text = true := by
        simp [containsSub, h2]
      rw [cleanCodeFences, if_neg (by simp [hc]), if_pos hc2, cleanCodeFencesSegments, h1, h2]
      rw [splitSub_of_some _ _ i hpf h2]
      simp only [List.getD_cons_succ]
      rw [getD_zero_headD, splitSub_headD _ _ hpf]
    | none =>
      have hc2 : containsSub "```" text = false := by
        simp [containsSub, h2]
      rw [cleanCodeFences, if_neg (by simp [hc]), if_neg (by simp [hc2]),
          cleanCodeFencesSegments, h1, h2]

/-- Claim C2 (counterexample): ensure_aliases does not scan the SELECT
clause of each statement: a two-statement input whose second statement is
a SELECT with an unaliased COUNT is returned unchanged, with no alias
token appended anywhere. -/
theorem ensure_aliases_skips_later_statements_cex :
    ensureAliases "DELETE FROM t; SELECT COUNT(*) FROM t"
      = "DELETE FROM t; SELECT COUNT(*) FROM t" ∧
    containsSub "AS" (ensureAliases "DELETE FROM t; SELECT COUNT(*) FROM t") = false := by
  refine ⟨by decide, by decide⟩

/-- Claim C2 (amended): ensure_aliases only rewrites the SELECT clause of
a string that itself begins (after optional whitespace) with SELECT; when
the anchored select-from pattern does not match, the string is returned
unchanged; and within the matched clause the single pass appends an alias
to every unaliased aggregate match of a function kind, not only the first
(both COUNT calls below receive an alias). -/
theorem ensure_aliases_leading_clause_only :
    (∀ sql : String, matchSelectFrom sql = Option.none → ensureAliases sql = sql) ∧
    ensureAliases "SELECT COUNT(a), COUNT(b) FROM t"
      = "SELECT COUNT(a) AS count, COUNT(b) AS count FROM t" := by
  constructor
  · intro sql h
    simp [ensureAliases, h]
  · decide

/-- Claim C2 (witness for the amended claim): a statement that does not
begin with SELECT is returned unchanged. -/
theorem ensure_aliases_leading_clause_only_witness :
    ensureAliases "UPDATE t SET a=1" = "UPDATE t SET a=1" :=
  ensure_aliases_leading_clause_only.1 "UPDATE t SET a=1" (by decide)

/-- Claim C3 (counterexample): ensure_aliases is not idempotent.  On the
first input the single pass appends one alias to the COUNT call; applying
the function again to its own output appends a second alias, because the
appended alias word followed by a parenthesized expression is itself an
unaliased aggregate match of the case-insensitive pattern. -/
theorem ensure_aliases_not_idempotent_cex :
    ensureAliases "SELECT COUNT(a)(x) FROM t" = "SELECT COUNT(a) AS count(x) FROM t" ∧
    ensureAliases "SELECT COUNT(a) AS count(x) FROM t"
      = "SELECT COUNT(a) AS count(x) AS count FROM t" ∧
    ensureAliases (ensureAliases "SELECT COUNT(a)(x) FROM t")
      ≠ ensureAliases "SELECT COUNT(a)(x) FROM t" := by
  refine ⟨by decide, by decide, by decide⟩

/-- Claim C3 (amended): on an unaliased aggregate call the single pass
appends exactly one alias token, and a call already carrying an alias is
left unchanged; but the operation is not idempotent in general, as a
second pass can append a further alias. -/
theorem ensure_aliases_single_pass :
    ensureAliases "SELECT COUNT(*) FROM t" = "SELECT COUNT(*) AS count FROM t" ∧
    ensureAliases "SELECT COUNT(*) AS count FROM t" = "SELECT COUNT(*) AS count FROM t" ∧
    ensureAliases (ensureAliases "SELECT MIN(x)(y) FROM t")
      ≠ ensureAliases "SELECT MIN(x)(y) FROM t" := by
  refine ⟨by decide, by decide, by decide⟩

/-! Helper lemmas about the executor loop. -/

theorem execStep_ok {d : Type} {eng : Engine d} {st st2 : LoopSt d} {stmt : String}
    (h : execStep eng st stmt = Except.ok st2) :
    ∃ c cur, eng st.current stmt = Except.ok (cur, c) ∧
      st2.trace = st.trace ++ [(stmt, c)] ∧
      st2.committed = (if isSelect stmt then st.committed else cur) ∧
      st2.selRes = (if isSelect stmt then rowsToDicts c else st.selRes) ∧
      st2.total = (if isSelect stmt then st.total
                   else if c.rowcount ≠ -1 then st.total + c.rowcount else st.total) ∧
      st2.lastId = (if isSelect stmt then st.lastId else c.lastrowid) := by
  cases hs : isSelect stmt <;> simp only [execStep, hs] at h <;> simp only [Bool.false_eq_true, if_false, if_true] at h
  · cases hr : eng st.current stmt with
    | error e => rw [hr] at h; exact absurd h (by simp)
    | ok p =>
      obtain ⟨cur, c⟩ := p
      rw [hr] at h
      refine ⟨c, cur, rfl, ?_⟩
      cases h
      simp [hs]
  · cases hr : eng st.current stmt with
    | error e => rw [hr] at h; exact absurd h (by simp)
    | ok p =>
      obtain ⟨cur, c⟩ := p
      rw [hr] at h
      refine ⟨c, cur, rfl, ?_⟩
      cases h
      simp [hs]

theorem execLoop_ok_trace {d : Type} {eng : Engine d} :
    ∀ (ss : List String) (st0 st : LoopSt d), execLoop eng ss st0 = Except.ok st →
      st.trace.map Prod.fst = st0.trace.map Prod.fst ++ ss := by
  intro ss
  induction ss with
  | nil => intro st0 st h; cases h; simp
  | cons stmt rest ih =>
    intro st0 st h
    rw [execLoop] at h
    cases hst : execStep eng st0 stmt with
    | error f => rw [hst] at h; exact absurd h (by simp)
    | ok st1 =>
      rw [hst] at h
      obtain ⟨c, cur, -, htr, -⟩ := execStep_ok hst
      rw [ih st1 st h, htr]
      simp

theorem getLastD_cons_cons {α : Type} (a b : α) (l : List α) (dflt : α) :
    (a :: b :: l).getLastD dflt = (b :: l).getLastD dflt := by
  simp [List.getLastD]

theorem execLoop_ok_selRes {d : Type} {eng : Engine d} :
    ∀ (ss : List String) (st0 st : LoopSt d), ss ≠ [] →
      isSelect (ss.getLastD "") = true → execLoop eng ss st0 = Except.ok st →
      ∃ p, st.trace.getLast? = some p ∧ st.selRes = rowsToDicts p.2 := by
  intro ss
  induction ss with
  | nil => intro st0 st hne; exact absurd rfl hne
  | cons stmt rest ih =>
    intro st0 st hne hsel h
    rw [execLoop] at h
    cases hst : execStep eng st0 stmt with
    | error f => rw [hst] at h; exact absurd h (by simp)
    | ok st1 =>
      rw [hst] at h
      cases rest with
      | nil =>
        cases h
        obtain ⟨c, cur, -, htr, -, hsr, -⟩ := execStep_ok hst
        have hsel1 : isSelect stmt = true := by simpa using hsel
        refine ⟨(stmt, c), ?_, ?_⟩
        · rw [htr]; simp
        · rw [hsr, if_pos hsel1]
      | cons r rs =>
        have hsel2 : isSelect ((r :: rs).getLastD "") = true := by
          rwa [getLastD_cons_cons] at hsel
        exact ih st1 st (by simp) hsel2 h

theorem aggTotal_concat (tr : List (String × Cursor)) (p : String × Cursor) :
    aggTotal (tr ++ [p]) =
      (if isSelect p.1 then aggTotal tr
       else if p.2.rowcount ≠ -1 then aggTotal tr + p.2.rowcount else aggTotal tr) := by
  simp [aggTotal, List.foldl_append]

theorem aggLastId_concat (tr : List (String × Cursor)) (p : String × Cursor) :
    aggLastId (tr ++ [p]) =
      (if isSelect p.1 then aggLastId tr else p.2.lastrowid) := by
  simp [aggLastId, List.foldl_append]

theorem execLoop_ok_agg {d : Type} {eng : Engine d} :
    ∀ (ss : List String) (st0 st : LoopSt d), execLoop eng ss st0 = Except.ok st →
      st0.total = aggTotal st0.trace → st0.lastId = aggLastId st0.trace →
      st.total = aggTotal st.trace ∧ st.lastId = aggLastId st.trace := by
  intro ss
  induction ss with
  | nil => intro st0 st h h1 h2; cases h; exact ⟨h1, h2⟩
  | cons stmt rest ih =>
    intro st0 st h h1 h2
    rw [execLoop] at h
    cases hst : execStep eng st0 stmt with
    | error f => rw [hst] at h; exact absurd h (by simp)
    | ok st1 =>
      rw [hst] at h
      obtain ⟨c, cur, -, htr, -, -, htot, hlast⟩ := execStep_ok hst
      refine ih st1 st h ?_ ?_
      · rw [htot, htr, aggTotal_concat, ← h1]
      · rw [hlast, htr, aggLastId_concat, ← h2]

theorem executeSqlQuery_of_ok {d : Type} {eng : Engine d} {db : d} {sql s0 : String}
    {tl : List String} {st : LoopSt d}
    (hsplit : splitStatements sql = s0 :: tl)
    (hok : execLoop eng (s0 :: tl) (initSt db) = Except.ok st) :
    executeSqlQuery eng db sql =
      ((if isSelect ((s0 :: tl).getLastD "") then st.selRes
        else [[("rows_affected", PyVal.int st.total), ("last_row_id", pyOfOpt st.lastId)]]),
       st.committed, st.trace.map Prod.fst) := by
  simp only [executeSqlQuery, hsplit, hok]

theorem executeSqlQuery_of_err {d : Type} {eng : Engine d} {db : d} {sql s0 : String}
    {tl : List String} {f : ExecFail d}
    (hsplit : splitStatements sql = s0 :: tl)
    (herr : execLoop eng (s0 :: tl) (initSt db) = Except.error f) :
    executeSqlQuery eng db sql =
      ([[("error", PyVal.str ("Error executing query: " ++ f.msg))]], f.committed, f.calls) := by
  simp only [executeSqlQuery, hsplit, herr]

/-- Claim C1: on any SQL string whose split yields a non-empty statement
list, a successful run of execute_sql_query sends exactly the split
statements to the engine in order, and the returned value reflects only
the final statement: when the final statement is a SELECT the result is
the dict conversion of the rows fetched by the last engine call, and
otherwise it is the single mapping carrying the rows-affected total
aggregated over all non-SELECT statements of the run together with the
last recorded insert id. -/
theorem execute_reflects_final_statement {d : Type} (eng : Engine d) (db : d)
    (sql : String) (st : LoopSt d)
    (hne : splitStatements sql ≠ [])
    (hok : execLoop eng (splitStatements sql) (initSt db) = Except.ok st) :
    st.trace.map Prod.fst = splitStatements sql ∧
    (isSelect ((splitStatements sql).getLastD "") = true →
      ∃ p, st.trace.getLast? = some p ∧ (executeSqlQuery eng db sql).1 = rowsToDicts p.2) ∧
    (isSelect ((splitStatements sql).getLastD "") = false →
      (executeSqlQuery eng db sql).1 =
        [[("rows_affected", PyVal.int (aggTotal st.trace)),
          ("last_row_id", pyOfOpt (aggLastId st.trace))]]) := by
  cases hsplit : splitStatements sql with
  | nil => exact absurd hsplit hne
  | cons s0 tl =>
    rw [hsplit] at hok
    have htr := execLoop_ok_trace (s0 :: tl) (initSt db) st hok
    have hagg := execLoop_ok_agg (s0 :: tl) (initSt db) st hok (by simp [initSt, aggTotal]) (by simp [initSt, aggLastId])
    refine ⟨by simpa [initSt] using htr, ?_, ?_⟩
    · intro hsel
      obtain ⟨p, hp, hsr⟩ := execLoop_ok_selRes (s0 :: tl) (initSt db) st (by simp) hsel hok
      refine ⟨p, hp, ?_⟩
      rw [executeSqlQuery_of_ok hsplit hok]
      dsimp only
      rw [if_pos hsel, hsr]
    · intro hsel
      rw [executeSqlQuery_of_ok hsplit hok]
      dsimp only
      rw [if_neg (by simpa using hsel), hagg.1, hagg.2]

/-- Claim C1 (witness): the documented example.  Deleting then selecting
on the toy engine returns only the rows of the final SELECT. -/
theorem execute_reflects_final_statement_witness :
    (executeSqlQuery toyRun [1, 2] "DELETE FROM t WHERE x=1; SELECT * FROM t;").1
      = [[("x", PyVal.int 2)]] := by
  have h := execute_reflects_final_statement toyRun [1, 2]
    "DELETE FROM t WHERE x=1; SELECT * FROM t;"
    ⟨[2], [2], 1, Option.none, [[("x", PyVal.int 2)]],
     [("DELETE FROM t WHERE x=1", ⟨Option.none, [], 1, Option.none⟩),
      ("SELECT * FROM t", ⟨some ["x"], [[PyVal.int 2]], -1, Option.none⟩)]⟩
    (by decide) (by rfl)
  obtain ⟨p, hp, hres⟩ := h.2.1 (by decide)
  have hpv : p = ("SELECT * FROM t", ⟨some ["x"], [[PyVal.int 2]], -1, Option.none⟩) := by
    have hq : (⟨[2], [2], 1, Option.none, [[("x", PyVal.int 2)]],
        [("DELETE FROM t WHERE x=1", ⟨Option.none, [], 1, Option.none⟩),
         ("SELECT * FROM t", ⟨some ["x"], [[PyVal.int 2]], -1, Option.none⟩)]⟩ : LoopSt (List Int)).trace.getLast?
        = some ("SELECT * FROM t", ⟨some ["x"], [[PyVal.int 2]], -1, Option.none⟩) := by decide
    rw [hq] at hp
    exact (Option.some_injective _ hp).symm
  rw [hres, hpv]
  decide

/-- Claim C6: writes are committed individually as the sequence runs; when
an earlier non-SELECT statement succeeds and a later statement raises, the
returned value is the error row and the persistent database state is the
state the earlier write committed, not the pre-sequence state. -/
theorem write_commits_survive_later_failure {d : Type} (eng : Engine d) (db : d)
    (sql s1 s2 : String) (db1 : d) (c1 : Cursor) (e : String)
    (hsplit : splitStatements sql = [s1, s2])
    (h1 : isSelect s1 = false)
    (hx : eng db s1 = Except.ok (db1, c1))
    (hf : eng db1 s2 = Except.error e) :
    executeSqlQuery eng db sql =
      ([[("error", PyVal.str ("Error executing query: " ++ e))]], db1, [s1, s2]) := by
  have herr : execLoop eng [s1, s2] (initSt db) = Except.error ⟨e, db1, [s1, s2]⟩ := by
    cases hs2 : isSelect s2 <;>
      simp [execLoop, execStep, h1, hx, hf, hs2, initSt]
  rw [executeSqlQuery_of_err hsplit herr]

/-- Claim C6 (witness): on the toy engine a delete followed by a failing
statement leaves the delete committed. -/
theorem write_commits_survive_later_failure_witness :
    executeSqlQuery toyRun [1, 2] "DELETE FROM t WHERE x=1; FAIL NOW" =
      ([[("error", PyVal.str "Error executing query: disk I/O error")]], [2],
       ["DELETE FROM t WHERE x=1", "FAIL NOW"]) := by
  have h := write_commits_survive_later_failure toyRun [1, 2]
    "DELETE FROM t WHERE x=1; FAIL NOW" "DELETE FROM t WHERE x=1" "FAIL NOW"
    [2] ⟨Option.none, [], 1, Option.none⟩ "disk I/O error"
    (by decide) (by decide) (by rfl) (by rfl)
  exact h

/-- Claim C8: when the whole sequence executes successfully and its final
statement is not a SELECT, the returned value is a single mapping with
exactly the keys rows_affected and last_row_id; no row data from earlier
SELECT statements appears in it. -/
theorem write_result_is_summary {d : Type} (eng : Engine d) (db : d)
    (sql : String) (st : LoopSt d)
    (hne : splitStatements sql ≠ [])
    (hok : execLoop eng (splitStatements sql) (initSt db) = Except.ok st)
    (hw : isSelect ((splitStatements sql).getLastD "") = false) :
    ∃ t l, (executeSqlQuery eng db sql).1 =
      [[("rows_affected", PyVal.int t), ("last_row_id", l)]] := by
  cases hsplit : splitStatements sql with
  | nil => exact absurd hsplit hne
  | cons s0 tl =>
    rw [hsplit] at hok
    rw [executeSqlQuery_of_ok hsplit hok]
    rw [hsplit] at hw
    refine ⟨st.total, pyOfOpt st.lastId, ?_⟩
    dsimp only
    rw [if_neg (by simpa using hw)]

/-- Claim C8 (witness): a SELECT followed by a DELETE yields only the
mutation summary, not the rows the SELECT fetched. -/
theorem write_result_is_summary_witness :
    ∃ t l, (executeSqlQuery toyRun [1, 2] "SELECT * FROM t; DELETE FROM t WHERE x=1").1 =
      [[("rows_affected", PyVal.int t), ("last_row_id", l)]] :=
  write_result_is_summary toyRun [1, 2] "SELECT * FROM t; DELETE FROM t WHERE x=1"
    ⟨[2], [2], 1, Option.none,
     [[("x", PyVal.int 1)], [("x", PyVal.int 2)]],
     [("SELECT * FROM t", ⟨some ["x"], [[PyVal.int 1], [PyVal.int 2]], -1, Option.none⟩),
      ("DELETE FROM t WHERE x=1", ⟨Option.none, [], 1, Option.none⟩)]⟩
    (by decide) (by rfl) (by decide)

/-- Claim C9: neither stage propagates a failure to the caller.  Every run
of execute_sql_query either returns the Empty SQL error row, or surfaces
an engine exception as a single row whose error text prefixes the message
with Error executing query, or completes the loop normally; and every run
of validate_sql_query returns either an accepting or a rejecting value. -/
theorem stage_failures_become_values (d : Type) (eng : Engine d) (db : d) (sql : String) :
    ((splitStatements sql = [] ∧
        (executeSqlQuery eng db sql).1 = [[("error", PyVal.str "Empty SQL")]]) ∨
      (∃ f, execLoop eng (splitStatements sql) (initSt db) = Except.error f ∧
        (executeSqlQuery eng db sql).1 =
          [[("error", PyVal.str ("Error executing query: " ++ f.msg))]]) ∨
      (∃ st, execLoop eng (splitStatements sql) (initSt db) = Except.ok st)) ∧
    ((∃ p calls, validateSqlQuery eng db sql = (ValidateResult.valid p, calls)) ∨
      (∃ e calls, validateSqlQuery eng db sql = (ValidateResult.invalid e, calls))) := by
  constructor
  · cases hsplit : splitStatements sql with
    | nil =>
      refine Or.inl ⟨rfl, ?_⟩
      simp only [executeSqlQuery, hsplit]
    | cons s0 tl =>
      cases hl : execLoop eng (s0 :: tl) (initSt db) with
      | error f =>
        refine Or.inr (Or.inl ⟨f, rfl, ?_⟩)
        rw [executeSqlQuery_of_err hsplit hl]
      | ok st => exact Or.inr (Or.inr ⟨st, rfl⟩)
  · rcases hv : validateSqlQuery eng db sql with ⟨v, calls⟩
    cases v with
    | valid p => exact Or.inl ⟨p, calls, rfl⟩
    | invalid e => exact Or.inr ⟨e, calls, rfl⟩

/-- Claim C5 (counterexample): the claim says a syntactically invalid
statement, read or write, is rejected with the engine message.  The toy
engine raises a syntax error on the statement below, yet because the inner
try of validate_sql_query swallows every exception of a non-SELECT
statement, the validator accepts the sequence. -/
theorem invalid_write_not_rejected_cex :
    toyRun [1, 2] "TOTALLY BOGUS" = Except.error "near \"TOTALLY BOGUS\": syntax error" ∧
    validateSqlQuery toyRun [1, 2] "TOTALLY BOGUS" = (ValidateResult.valid [], ["TOTALLY BOGUS"]) := by
  refine ⟨by rfl, by rfl⟩

/-- Claim C5 (amended): for a single-statement sequence the validator asks
the engine for EXPLAIN QUERY PLAN of a read and rejects with the engine
message when the request raises, accepts with the collected plan when it succeeds; a
write is executed on the same connection and rolled back, but its engine
exceptions are swallowed, so a write alone never causes rejection. -/
theorem validator_plan_reads_dry_run_writes :
    (∀ (d : Type) (eng : Engine d) (db : d) (sql s e : String),
      splitStatements sql = [s] → isSelect s = true →
      eng db ("EXPLAIN QUERY PLAN " ++ s) = Except.error e →
      validateSqlQuery eng db sql = (ValidateResult.invalid e, ["EXPLAIN QUERY PLAN " ++ s])) ∧
    (∀ (d : Type) (eng : Engine d) (db : d) (sql s : String) (db2 : d) (c : Cursor),
      splitStatements sql = [s] → isSelect s = true →
      eng db ("EXPLAIN QUERY PLAN " ++ s) = Except.ok (db2, c) →
      validateSqlQuery eng db sql = (ValidateResult.valid [c.rows], ["EXPLAIN QUERY PLAN " ++ s])) ∧
    (∀ (d : Type) (eng : Engine d) (db : d) (sql s : String),
      splitStatements sql = [s] → isSelect s = false →
      validateSqlQuery eng db sql = (ValidateResult.valid [], [s])) := by
  refine ⟨?_, ?_, ?_⟩
  · intro d eng db sql s e hsplit hsel hfail
    simp [validateSqlQuery, hsplit, valLoop, hsel, hfail]
  · intro d eng db sql s db2 c hsplit hsel hok
    simp [validateSqlQuery, hsplit, valLoop, hsel, hok]
  · intro d eng db sql s hsplit hsel
    cases hres : eng db s <;>
      simp [validateSqlQuery, hsplit, valLoop, hsel, hres]

/-- Claim C5 (witness): a read whose plan request fails is rejected with
the engine message, and a write is accepted with an empty plan list. -/
theorem validator_plan_reads_dry_run_writes_witness :
    validateSqlQuery toyRun [1, 2] "SELECT * FROM missing"
      = (ValidateResult.invalid "near \"EXPLAIN QUERY PLAN SELECT * FROM missing\": syntax error",
         ["EXPLAIN QUERY PLAN SELECT * FROM missing"]) ∧
    validateSqlQuery toyRun [1, 2] "DROP TABLE nope"
      = (ValidateResult.valid [], ["DROP TABLE nope"]) := by
  constructor
  · exact validator_plan_reads_dry_run_writes.1 (List Int) toyRun [1, 2]
      "SELECT * FROM missing" "SELECT * FROM missing" _ (by decide) (by decide) (by rfl)
  · exact validator_plan_reads_dry_run_writes.2.2 (List Int) toyRun [1, 2]
      "DROP TABLE nope" "DROP TABLE nope" (by decide) (by decide)

/-- Claim C7: an empty or whitespace-only SQL string makes the executor
node return the error row immediately, leaving the database untouched and
sending nothing to the validator or the engine (the call trace is empty). -/
theorem empty_sql_short_circuits {d : Type} (eng : Engine d) (db : d)
    (state : ChatBotState)
    (h : pyStrip (state.sql_query.getD "") = "") :
    queryExecutorNode eng db state =
      ({ state with query_result := some [[("error", PyVal.str "No SQL query provided")]],
                    final_response := some "" }, db, []) := by
  simp only [queryExecutorNode, h]
  simp

/-- Claim C7 (witness): a whitespace-only sql_query short-circuits on the
toy engine with no engine call. -/
theorem empty_sql_short_circuits_witness :
    queryExecutorNode toyRun [1, 2] ⟨"how many", some "   ", Option.none, Option.none⟩ =
      (⟨"how many", some "   ",
        some [[("error", PyVal.str "No SQL query provided")]], some ""⟩, [1, 2], []) :=
  empty_sql_short_circuits toyRun [1, 2] ⟨"how many", some "   ", Option.none, Option.none⟩
    (by decide)

/-- Rendering of an error result row by the response generator. -/
theorem responseGeneratorNode_error (state : ChatBotState) (msg : String) :
    (responseGeneratorNode
        { state with query_result := some [[("error", PyVal.str msg)]],
                     final_response := some "" }).final_response
      = some (errMark ++ msg) := by
  simp [responseGeneratorNode, dictGet, pyStr]

/-- Claim C4 (counterexample): the claim says the rendered reply of a
rejected statement begins with the text Invalid query.  On the toy engine
the statement below is rejected by the validator, yet the rendered reply
begins with the error mark prefix of agent.py, not with Invalid query. -/
theorem rejected_reply_style_cex :
    (validateSqlQuery toyRun [1, 2] "SELECT * FROM missing").1
      = ValidateResult.invalid "near \"EXPLAIN QUERY PLAN SELECT * FROM missing\": syntax error" ∧
    strBeginsWith
      ((responseGeneratorNode (queryExecutorNode toyRun [1, 2]
          ⟨"q", some "SELECT * FROM missing", Option.none, Option.none⟩).1).final_response.getD "")
      "Invalid query:" = false := by
  refine ⟨by rfl, by decide⟩

/-- Claim C4 (amended): whenever the executor node rejects (validation of
the stripped SQL fails and validation of its ensure_aliases rewrite also
fails), the rendered reply is the error mark followed by Invalid query,
a colon, a space and the engine message. -/
theorem rejected_reply_error_text {d : Type} (eng : Engine d) (db : d)
    (state : ChatBotState) (e1 e2 : String)
    (hne : pyStrip (state.sql_query.getD "") ≠ "")
    (hv1 : (validateSqlQuery eng db (pyStrip (state.sql_query.getD ""))).1
      = ValidateResult.invalid e1)
    (hv2 : (validateSqlQuery eng db (ensureAliases (pyStrip (state.sql_query.getD "")))).1
      = ValidateResult.invalid e2) :
    ∃ m, (responseGeneratorNode (queryExecutorNode eng db state).1).final_response
      = some (errMark ++ ("Invalid query: " ++ m)) := by
  by_cases hfix : ensureAliases (pyStrip (state.sql_query.getD "")) = pyStrip (state.sql_query.getD "")
  · refine ⟨e1, ?_⟩
    have hstep : (queryExecutorNode eng db state).1 =
        { state with query_result := some [[("error", PyVal.str ("Invalid query: " ++ e1))]],
                     final_response := some "" } := by
      simp only [queryExecutorNode]
      rw [if_neg hne, hv1]
      dsimp only
      rw [if_pos hfix]
    rw [hstep, responseGeneratorNode_error]
  · refine ⟨e2, ?_⟩
    have hstep : (queryExecutorNode eng db state).1 =
        { state with query_result := some [[("error", PyVal.str ("Invalid query: " ++ e2))]],
                     final_response := some "" } := by
      simp only [queryExecutorNode]
      rw [if_neg hne, hv1]
      dsimp only
      rw [if_neg hfix, hv2]
    rw [hstep, responseGeneratorNode_error]

/-- Claim C4 (witness): the rejected toy query renders as the error mark
followed by the Invalid query text and the engine message. -/
theorem rejected_reply_error_text_witness :
    ∃ m, (responseGeneratorNode (queryExecutorNode toyRun [1, 2]
        ⟨"q", some "SELECT * FROM nowhere", Option.none, Option.none⟩).1).final_response
      = some (errMark ++ ("Invalid query: " ++ m)) :=
  rejected_reply_error_text toyRun [1, 2]
    ⟨"q", some "SELECT * FROM nowhere", Option.none, Option.none⟩
    "near \"EXPLAIN QUERY PLAN SELECT * FROM nowhere\": syntax error"
    "near \"EXPLAIN QUERY PLAN SELECT * FROM nowhere\": syntax error"
    (by decide) (by rfl) (by rfl)

end Text2SQL
